import Mathlib

/-!
# Cloud Security AI frontend: configuration, API service and dashboard logic

A shallow embedding of `frontend/src/config.js`, `frontend/src/services/api.js`
and the event handlers of `frontend/src/components/Dashboard.jsx`.

Conventions of the embedding

* A JavaScript value that is either a string or `undefined`/`null` is an
  `Option String`; JavaScript truthiness of such a value is `some s` with
  `s ≠ ""`.
* An array is a list of slots, `none` being a hole of a sparse array.
* Asynchronous functions are run to completion: a call returns the requests it
  handed to the transport, the lines it wrote to the console and its result.
* Values the client never inspects (response payloads, batch requests,
  ingested rows, files) are values of a type parameter. Where the dashboard
  tests such a value for truthiness, the test is a function `truthy` of the
  payload type: `true` on every object, `false` on `''`, `null`, `0`, `false`.
-/

namespace CloudSecurityAI

/-! ## JavaScript operators used by the sources -/

/-- The expression `a || b` where `a` is a string or undefined and `b` a string:
`a` when `a` is truthy (defined and not the empty string), else `b`. -/
def strOr (a : Option String) (b : String) : String :=
  match a with
  | some s => if s = "" then b else s
  | none => b

/-! ## config.js -/

/-- The `endpoints` object of `config`. -/
structure Endpoints where
  health : String
  healthDetailed : String
  predict : String
  predictBatch : String
  modelInfo : String
  ingest : String
  ingestFile : String
  ingestStats : String
  deriving DecidableEq, Repr

/-- The exported `config` object. -/
structure Config where
  apiUrl : String
  endpoints : Endpoints
  deriving DecidableEq, Repr

/-- The constant `API_URL`: `import.meta.env.VITE_API_URL || 'http://localhost:8000'`.
The argument is the value of the environment entry, `none` when it is not defined. -/
def API_URL (VITE_API_URL : Option String) : String :=
  strOr VITE_API_URL "http://localhost:8000"

/-- The object `config`, as a function of the environment entry `VITE_API_URL`. -/
def config (VITE_API_URL : Option String) : Config :=
  { apiUrl := API_URL VITE_API_URL
    endpoints :=
      { health := API_URL VITE_API_URL ++ "/health"
        healthDetailed := API_URL VITE_API_URL ++ "/health/detailed"
        predict := API_URL VITE_API_URL ++ "/api/predict"
        predictBatch := API_URL VITE_API_URL ++ "/api/predict/batch"
        modelInfo := API_URL VITE_API_URL ++ "/api/model/info"
        ingest := API_URL VITE_API_URL ++ "/api/ingest"
        ingestFile := API_URL VITE_API_URL ++ "/api/ingest/file"
        ingestStats := API_URL VITE_API_URL ++ "/api/ingest/stats" } }

/-- The eight endpoint strings of a configuration, in the order of the source. -/
def Endpoints.toList (e : Endpoints) : List String :=
  [e.health, e.healthDetailed, e.predict, e.predictBatch, e.modelInfo, e.ingest,
    e.ingestFile, e.ingestStats]

/-! ## URL resolution of the HTTP library

`services/api.js` creates its client with `axios.create({ baseURL: config.apiUrl, ... })`
and calls it with relative paths. The library (version 1 of axios, a dependency,
not part of the repository) resolves the requested URL against `baseURL` with the
three helpers below. Earlier versions of the library remove every slash at the
end of `baseURL` instead of at most two; the two agree on every base URL that
ends with at most two slashes. -/

/-- Whether a list of characters starts with `//`. -/
def startsWithSlashes : List Char → Bool
  | '/' :: '/' :: _ => true
  | _ => false

/-- The library helper `isAbsoluteURL`: the test `/^([a-z][a-z\d+\-.]*:)?\/\//i`. -/
def isAbsoluteURL (url : String) : Bool :=
  startsWithSlashes url.data ||
    match url.data with
    | [] => false
    | c :: rest =>
      c.isAlpha &&
        match rest.dropWhile (fun d => d.isAlphanum || d == '+' || d == '-' || d == '.') with
        | ':' :: tail => startsWithSlashes tail
        | _ => false

/-- The replacement `baseURL.replace(/\/?\/$/, '')`: one or two slashes at the end
are removed. -/
def stripTrailingSlash (cs : List Char) : List Char :=
  match cs.reverse with
  | '/' :: '/' :: r => r.reverse
  | '/' :: r => r.reverse
  | _ => cs

/-- The library helper `combineURLs`:
`relativeURL ? baseURL.replace(/\/?\/$/, '') + '/' + relativeURL.replace(/^\/+/, '') : baseURL`. -/
def combineURLs (baseURL relativeURL : String) : String :=
  if relativeURL = "" then baseURL
  else ⟨stripTrailingSlash baseURL.data ++ '/' :: relativeURL.data.dropWhile (· == '/')⟩

/-- The library helper `buildFullPath`: a relative requested URL is combined with
a non-empty base URL, any other is used as it is. -/
def buildFullPath (baseURL requestedURL : String) : String :=
  if baseURL ≠ "" ∧ isAbsoluteURL requestedURL = false then combineURLs baseURL requestedURL
  else requestedURL

/-! ## Numbers and `parseFloat` -/

/-- A JavaScript number. A finite number is kept as the decimal literal it was
read from: `finite neg d e` is the double nearest to `± d × 10 ^ e` (the rounding
inside the finite range is not computed, no function of the sources depends on
it). -/
inductive JsNumber
  | nan
  | infinity (negative : Bool)
  | finite (negative : Bool) (digits : Nat) (exponent : Int)
  deriving DecidableEq, Repr

/-- The global function `isNaN`, on a number. -/
def isNaN (number : JsNumber) : Bool :=
  match number with
  | .nan => true
  | _ => false

/-- The function `Number.isFinite`: neither `NaN` nor an infinity. -/
def JsNumber.isFinite (number : JsNumber) : Bool :=
  match number with
  | .finite _ _ _ => true
  | _ => false

/-- White space and line terminators of the language, which `parseFloat` skips
at the start of its argument. -/
def isWhiteSpace (c : Char) : Bool :=
  c.toNat ∈ [0x09, 0x0A, 0x0B, 0x0C, 0x0D, 0x20, 0xA0, 0x1680, 0x2028, 0x2029, 0x202F, 0x205F,
    0x3000, 0xFEFF] || (0x2000 ≤ c.toNat && c.toNat ≤ 0x200A)

/-- The value of a run of decimal digits. -/
def digitsValue (ds : List Char) : Nat :=
  ds.foldl (fun acc c => 10 * acc + (c.toNat - 48)) 0

/-- An exponent part `e`, `e+` or `e-` followed by at least one digit, at the
start of `cs`: its value and the characters after it. -/
def scanExponent (cs : List Char) : Option (Int × List Char) :=
  match cs with
  | [] => none
  | e :: rest =>
    if e = 'e' ∨ e = 'E' then
      match rest with
      | '+' :: r =>
        if (r.takeWhile Char.isDigit).isEmpty then none
        else some ((digitsValue (r.takeWhile Char.isDigit) : Int), r.dropWhile Char.isDigit)
      | '-' :: r =>
        if (r.takeWhile Char.isDigit).isEmpty then none
        else some (-(digitsValue (r.takeWhile Char.isDigit) : Int), r.dropWhile Char.isDigit)
      | r =>
        if (r.takeWhile Char.isDigit).isEmpty then none
        else some ((digitsValue (r.takeWhile Char.isDigit) : Int), r.dropWhile Char.isDigit)
    else none

/-- The least magnitude that rounds to an infinity, `2 ^ 1024 - 2 ^ 970`, written
`(2 ^ 54 - 1) * 2 ^ 970`. -/
def overflowThreshold : Nat := (2 ^ 54 - 1) * (2 ^ 194) ^ 5

/-- Whether `digits × 10 ^ exponent` is at least `overflowThreshold`. -/
def overflows (digits : Nat) (exponent : Int) : Bool :=
  match exponent with
  | Int.ofNat e => overflowThreshold ≤ digits * 10 ^ e
  | Int.negSucc e => overflowThreshold * 10 ^ (e + 1) ≤ digits

/-- The number value of the decimal `± digits × 10 ^ exponent`. -/
def numberValue (negative : Bool) (digits : Nat) (exponent : Int) : JsNumber :=
  if overflows digits exponent then .infinity negative else .finite negative digits exponent

/-- The longest prefix of `cs` that is an unsigned decimal literal of
`parseFloat` (`Infinity`, or digits with an optional fraction and an optional
exponent, at least one digit): its value under the given sign and the characters
after it. -/
def scanUnsigned (negative : Bool) (cs : List Char) : Option (JsNumber × List Char) :=
  if "Infinity".data.isPrefixOf cs then some (.infinity negative, cs.drop 8)
  else
    let intDigits := cs.takeWhile Char.isDigit
    let afterInt := cs.dropWhile Char.isDigit
    let fracDigits := match afterInt with
      | '.' :: r => r.takeWhile Char.isDigit
      | _ => []
    let afterFrac := match afterInt with
      | '.' :: r =>
        if intDigits.isEmpty ∧ (r.takeWhile Char.isDigit).isEmpty then afterInt
        else r.dropWhile Char.isDigit
      | _ => afterInt
    if intDigits.isEmpty ∧ fracDigits.isEmpty then none
    else
      match scanExponent afterFrac with
      | some (e, rest) =>
        some (numberValue negative (digitsValue (intDigits ++ fracDigits)) (e - fracDigits.length),
          rest)
      | none =>
        some (numberValue negative (digitsValue (intDigits ++ fracDigits))
          (-(fracDigits.length : Int)), afterFrac)

/-- The longest prefix of `cs` that is a decimal literal with an optional sign. -/
def scanLiteral (cs : List Char) : Option (JsNumber × List Char) :=
  match cs with
  | '+' :: r => scanUnsigned false r
  | '-' :: r => scanUnsigned true r
  | _ => scanUnsigned false cs

/-- The global function `parseFloat` on a string: leading white space is
skipped, the longest prefix that is a decimal literal gives the number, and there
being no such prefix gives `NaN`. -/
def parseFloat (string : String) : JsNumber :=
  match scanLiteral (string.data.dropWhile isWhiteSpace) with
  | some (number, _) => number
  | none => .nan

/-- A text is numeric when it is a decimal literal as a whole: after leading
white space, `parseFloat` reads a literal and nothing but white space follows
it. -/
def isNumericText (text : String) : Bool :=
  match scanLiteral (text.data.dropWhile isWhiteSpace) with
  | some (_, rest) => rest.all isWhiteSpace
  | none => false

/-! ## Arrays -/

/-- A JavaScript array: a list of slots, `none` being a hole. -/
abbrev JsArray (α : Type) := List (Option α)

/-- The method `map`: the callback is applied to the elements, holes stay holes. -/
def JsArray.map {α β : Type} (f : α → β) (array : JsArray α) : JsArray β :=
  List.map (Option.map f) array

/-- The method `some`: whether the callback holds of an element; holes are skipped. -/
def JsArray.some {α : Type} (p : α → Bool) (array : JsArray α) : Bool :=
  List.any array fun slot =>
    match slot with
    | Option.some v => p v
    | Option.none => false

/-- The method `filter` from index `k` on: the callback sees each element with its
index, holes are skipped and the result has no holes. -/
def JsArray.filterFrom {α : Type} (keep : α → Nat → Bool) (k : Nat) : JsArray α → JsArray α
  | [] => []
  | Option.none :: rest => JsArray.filterFrom keep (k + 1) rest
  | Option.some v :: rest =>
    if keep v k then Option.some v :: JsArray.filterFrom keep (k + 1) rest
    else JsArray.filterFrom keep (k + 1) rest

/-- The method `filter`. -/
def JsArray.filter {α : Type} (keep : α → Nat → Bool) (array : JsArray α) : JsArray α :=
  JsArray.filterFrom keep 0 array

/-- The elements of an array, its holes left out. -/
def JsArray.elements {α : Type} (array : JsArray α) : List α :=
  array.filterMap id

/-- An entry of the `features` state: a text, or `undefined`. -/
inductive Entry
  | undefined
  | text (value : String)
  deriving DecidableEq, Repr

/-- The conversion of an entry to a string, applied by `parseFloat` to its argument. -/
def Entry.toString : Entry → String
  | .undefined => "undefined"
  | .text value => value

/-- The array literal `[...array]`: a copy without holes, a hole being read as
`undefined`. -/
def spread (array : JsArray Entry) : JsArray Entry :=
  List.map (fun slot => some (slot.getD Entry.undefined)) array

/-- The assignment `array[index] = value`. An integer from `0` to `2 ^ 32 - 2` is
an array index: the element is replaced, or the array grows to `index + 1` slots
with holes in between. Any other key names a plain property and leaves the
elements as they are. -/
def assign (array : JsArray Entry) (index : Int) (value : Entry) : JsArray Entry :=
  if 0 ≤ index ∧ index < 4294967295 then
    if index.toNat < array.length then array.set index.toNat (some value)
    else array ++ List.replicate (index.toNat - array.length) none ++ [some value]
  else array

/-! ## services/api.js -/

/-- The HTTP methods the service uses. -/
inductive Method
  | GET
  | POST
  deriving DecidableEq, Repr

/-- A value appended to a `FormData`. -/
inductive FormValue (P : Type)
  | file (handle : P)
  | text (value : String)
  deriving DecidableEq, Repr

/-- The second argument of `apiClient.post`, per call site. -/
inductive RequestData (P : Type)
  | none
  | predictBody (features : JsArray JsNumber) (model_version : String)
  | raw (requests : P)
  | ingestBody (data : P) (dataset_name : String)
  | formData (entries : List (String × FormValue P))
  deriving DecidableEq, Repr

/-- The request the client hands to its transport: the defaults of
`axios.create` merged with the arguments of the call. -/
structure RequestConfig (P : Type) where
  method : Method
  baseURL : String
  url : String
  data : RequestData P
  contentType : String
  timeout : Nat
  deriving DecidableEq, Repr

/-- The URL a request is sent to. -/
def RequestConfig.fullPath {P : Type} (request : RequestConfig P) : String :=
  buildFullPath request.baseURL request.url

/-- A response of the server: its status and its deserialized body. -/
structure Response (D : Type) where
  status : Nat
  data : D
  deriving DecidableEq, Repr

/-- The body of an error response, as far as the dashboard reads it: the field
`detail`, `none` when the body has no such field. -/
structure ErrorBody where
  detail : Option String
  deriving DecidableEq, Repr

/-- An error object. `response` is the response of the server when one arrived
(its `data` is `none` when there is no body), `request` the request object when
the request was made; an error made with `new Error(message)` has neither. -/
structure JsError where
  message : String
  request : Option Unit
  response : Option (Response (Option ErrorBody))
  deriving DecidableEq, Repr

/-- The second argument of a `console.error` call. -/
inductive ConsoleArg
  | message (text : String)
  | data (body : Option ErrorBody)
  | error (err : JsError)
  deriving DecidableEq, Repr

/-- One call of `console.error(label, arg)`. -/
structure ConsoleLine where
  label : String
  arg : ConsoleArg
  deriving DecidableEq, Repr

/-- The transport under the client: the outcome of one request, a response
accepted as a success or the error the library raises. -/
abbrev Adapter (P D : Type) := RequestConfig P → Except JsError (Response D)

/-- What running an asynchronous function to completion did: the requests handed
to the transport, the console lines written, and the result. -/
structure Run (P α : Type) where
  requests : List (RequestConfig P)
  console : List ConsoleLine
  result : α

/-- The request interceptor, fulfilled side: `(config) => config`. -/
def requestInterceptor {P : Type} (request : RequestConfig P) : RequestConfig P :=
  request

/-- The response interceptor, fulfilled side: `(response) => response`. -/
def responseFulfilled {D : Type} (response : Response D) : Response D :=
  response

/-- The response interceptor, rejected side: one console line, chosen by
`error.response`, else `error.request`, else neither, and
`Promise.reject(error)`; the second component is the error rejected with. -/
def responseRejected (error : JsError) : ConsoleLine × JsError :=
  match error.response with
  | some response => (⟨"API Error:", .data response.data⟩, error)
  | none =>
    match error.request with
    | some _ => (⟨"Network Error:", .message error.message⟩, error)
    | none => (⟨"Error:", .message error.message⟩, error)

/-- The request made of the defaults of `apiClient` (base URL `config.apiUrl`,
timeout `30000`) and the arguments of a call. -/
def apiClient.merged {P : Type} (env : Option String) (method : Method) (url : String)
    (data : RequestData P) (contentType : String) : RequestConfig P :=
  { method := method, baseURL := (config env).apiUrl, url := url, data := data,
    contentType := contentType, timeout := 30000 }

/-- A request through `apiClient`: the interceptors around one call of the
transport. -/
def apiClient.request {P D : Type} (env : Option String) (adapter : Adapter P D)
    (method : Method) (url : String) (data : RequestData P) (contentType : String) :
    Run P (Except JsError (Response D)) :=
  let request := requestInterceptor (apiClient.merged env method url data contentType)
  match adapter request with
  | .ok response =>
    { requests := [request], console := [], result := .ok (responseFulfilled response) }
  | .error error =>
    { requests := [request], console := [(responseRejected error).1],
      result := .error (responseRejected error).2 }

/-- The call `apiClient.get(url)`. -/
def apiClient.get {P D : Type} (env : Option String) (adapter : Adapter P D) (url : String) :
    Run P (Except JsError (Response D)) :=
  apiClient.request env adapter .GET url .none "application/json"

/-- The call `apiClient.post(url, data)`, with the `Content-Type` header in force. -/
def apiClient.post {P D : Type} (env : Option String) (adapter : Adapter P D) (url : String)
    (data : RequestData P) (contentType : String) : Run P (Except JsError (Response D)) :=
  apiClient.request env adapter .POST url data contentType

/-- The tail of every API method: `const response = await ...; return response.data`. -/
def returnData {P D : Type} (call : Run P (Except JsError (Response D))) :
    Run P (Except JsError D) :=
  { requests := call.requests, console := call.console,
    result := call.result.map fun response => response.data }

/-- The method `healthCheck`. -/
def healthCheck {P D : Type} (env : Option String) (adapter : Adapter P D) :
    Run P (Except JsError D) :=
  returnData (apiClient.get env adapter "/health")

/-- The method `detailedHealthCheck`. -/
def detailedHealthCheck {P D : Type} (env : Option String) (adapter : Adapter P D) :
    Run P (Except JsError D) :=
  returnData (apiClient.get env adapter "/health/detailed")

/-- The method `predict`; `modelVersion` is `none` when the argument is omitted,
and the default `'latest'` then applies. -/
def predict {P D : Type} (env : Option String) (adapter : Adapter P D)
    (features : JsArray JsNumber) (modelVersion : Option String) : Run P (Except JsError D) :=
  returnData (apiClient.post env adapter "/api/predict"
    (.predictBody features (modelVersion.getD "latest")) "application/json")

/-- The method `predictBatch`. -/
def predictBatch {P D : Type} (env : Option String) (adapter : Adapter P D) (requests : P) :
    Run P (Except JsError D) :=
  returnData (apiClient.post env adapter "/api/predict/batch" (.raw requests) "application/json")

/-- The method `getModelInfo`. -/
def getModelInfo {P D : Type} (env : Option String) (adapter : Adapter P D) :
    Run P (Except JsError D) :=
  returnData (apiClient.get env adapter "/api/model/info")

/-- The method `ingestData`; the default of `datasetName` is `'default'`. -/
def ingestData {P D : Type} (env : Option String) (adapter : Adapter P D) (data : P)
    (datasetName : Option String) : Run P (Except JsError D) :=
  returnData (apiClient.post env adapter "/api/ingest"
    (.ingestBody data (datasetName.getD "default")) "application/json")

/-- The method `ingestFile`; the default of `datasetName` is `'uploaded'`. -/
def ingestFile {P D : Type} (env : Option String) (adapter : Adapter P D) (file : P)
    (datasetName : Option String) : Run P (Except JsError D) :=
  returnData (apiClient.post env adapter "/api/ingest/file"
    (.formData [("file", .file file), ("dataset_name", .text (datasetName.getD "uploaded"))])
    "multipart/form-data")

/-- The method `getIngestStats`. -/
def getIngestStats {P D : Type} (env : Option String) (adapter : Adapter P D) :
    Run P (Except JsError D) :=
  returnData (apiClient.get env adapter "/api/ingest/stats")

/-! ## components/Dashboard.jsx -/

/-- The state of the `Dashboard` component. -/
structure DashboardState (D : Type) where
  apiStatus : Option D
  modelInfo : Option D
  loading : Bool
  error : Option String
  features : JsArray Entry
  predictionResult : Option D
  predicting : Bool

/-- The initial value of the `features` state. -/
def initialFeatures : JsArray Entry :=
  [some (.text "1.5"), some (.text "2.3"), some (.text "4.1"), some (.text "0.8")]

/-- The state of a freshly mounted component. -/
def initialState {D : Type} : DashboardState D :=
  { apiStatus := none, modelInfo := none, loading := false, error := none,
    features := initialFeatures, predictionResult := none, predicting := false }

/-- The text of the connection indicator: `apiStatus ? 'API Connected' : 'API Offline'`.
The state `apiStatus` is `null` (here `none`) or the payload of the last successful
health check, and `truthy` is the truthiness of a payload. -/
def statusText {D : Type} (truthy : D → Bool) (state : DashboardState D) : String :=
  match state.apiStatus with
  | some payload => if truthy payload then "API Connected" else "API Offline"
  | none => "API Offline"

/-- The function `checkApiHealth`. -/
def checkApiHealth {P D : Type} (env : Option String) (adapter : Adapter P D)
    (state : DashboardState D) : Run P (DashboardState D) :=
  let call : Run P (Except JsError D) := healthCheck env adapter
  match call.result with
  | .ok health =>
    { requests := call.requests, console := call.console,
      result := { state with apiStatus := some health, error := none } }
  | .error err =>
    { requests := call.requests,
      console := call.console ++ [⟨"Health check failed:", .error err⟩],
      result := { state with
        error := some "Unable to connect to backend API. Make sure the server is running." } }

/-- The expression `err.response?.data?.detail`. -/
def JsError.detail (err : JsError) : Option String :=
  (err.response.bind fun response => response.data).bind fun body => body.detail

/-- The argument of `setError` in the `catch` block of `handlePredict`:
`err.response?.data?.detail || err.message || 'Prediction failed'`. -/
def errorText (err : JsError) : String :=
  strOr (some (strOr err.detail err.message)) "Prediction failed"

/-- The array `featureValues` of `handlePredict`: `features.map(f => parseFloat(f))`. -/
def featureValues (features : JsArray Entry) : JsArray JsNumber :=
  JsArray.map (fun f => parseFloat f.toString) features

/-- The `catch` and `finally` blocks of `handlePredict`. -/
def handlePredict.caught {P D : Type} (state : DashboardState D) (err : JsError)
    (requests : List (RequestConfig P)) (console : List ConsoleLine) : Run P (DashboardState D) :=
  { requests := requests, console := console ++ [⟨"Prediction error:", .error err⟩],
    result := { state with error := some (errorText err), predicting := false } }

/-- The function `handlePredict`. -/
def handlePredict {P D : Type} (env : Option String) (adapter : Adapter P D)
    (state : DashboardState D) : Run P (DashboardState D) :=
  let started := { state with predicting := true, predictionResult := none }
  if JsArray.some isNaN (featureValues state.features) then
    handlePredict.caught started
      { message := "All features must be valid numbers", request := none, response := none } [] []
  else
    let call : Run P (Except JsError D) := predict env adapter (featureValues state.features) none
    match call.result with
    | .ok result =>
      { requests := call.requests, console := call.console,
        result := { started with predictionResult := some result, error := none,
                                 predicting := false } }
    | .error err => handlePredict.caught started err call.requests call.console

/-- The function `handleFeatureChange`, on the value of `features`. -/
def handleFeatureChange (features : JsArray Entry) (index : Int) (value : String) :
    JsArray Entry :=
  assign (spread features) index (.text value)

/-- The function `addFeature`, on the value of `features`. -/
def addFeature (features : JsArray Entry) : JsArray Entry :=
  spread features ++ [some (.text "0.0")]

/-- The function `removeFeature`, on the value of `features`. -/
def removeFeature (features : JsArray Entry) (index : Int) : JsArray Entry :=
  if features.length > 1 then JsArray.filter (fun _ i => decide ((i : Int) ≠ index)) features
  else features

/-- A call of one of the three handlers that edit the feature list. Indices are
arbitrary integers; a key that is no integer acts as some integer does (an
assignment under it leaves the elements alone or hits an array index, and no
position is equal to it in `removeFeature`). -/
inductive FormAction
  | change (index : Int) (value : String)
  | add
  | remove (index : Int)
  deriving DecidableEq, Repr

/-- The feature list after one handler call. -/
def FormAction.apply (features : JsArray Entry) : FormAction → JsArray Entry
  | .change index value => handleFeatureChange features index value
  | .add => addFeature features
  | .remove index => removeFeature features index

/-- The feature list after a sequence of handler calls, from the initial list. -/
def featuresAfter (actions : List FormAction) : JsArray Entry :=
  actions.foldl FormAction.apply initialFeatures

/-- The text inputs of the form as a feature list: one entry per input. -/
def ofTexts (inputs : List String) : JsArray Entry :=
  inputs.map fun text => some (.text text)

/-- The request `handlePredict` makes when the validation passes. -/
def predictRequest {P : Type} (env : Option String) (features : JsArray Entry) : RequestConfig P :=
  apiClient.merged env .POST "/api/predict" (.predictBody (featureValues features) "latest")
    "application/json"

/-! ## Predicates used by the statements -/

/-- A run made exactly one request, with the given method, base URL and relative
URL, and returned the given value. -/
def Run.IsSingleCall {P D : Type} (run : Run P (Except JsError D)) (method : Method)
    (baseURL url : String) (value : D) : Prop :=
  ∃ request, run.requests = [request] ∧ request.method = method ∧
    request.baseURL = baseURL ∧ request.url = url ∧ run.result = .ok value

/-- Every request of a run is sent to the given URL. -/
def Run.Targets {P α : Type} (run : Run P α) (target : String) : Prop :=
  ∀ request ∈ run.requests, request.fullPath = target

/-- The invariant of the feature list: it has an element, and when it has only
one element it has a single slot. -/
def FeaturesInv (features : JsArray Entry) : Prop :=
  1 ≤ (JsArray.elements features).length ∧
    ((JsArray.elements features).length = 1 → features.length = 1)

/-! ## Theorems -/

/-! ### Operators, numbers and URLs -/

/-- The operator `||` returns a non-empty left operand. -/
theorem strOr_of_truthy (s b : String) (h : s ≠ "") : strOr (some s) b = s := by
  simp [strOr, h]

/-- A string is a prefix of every string it is extended to. -/
theorem data_prefix_append (a b : String) : a.data <+: (a ++ b).data := by
  rw [String.data_append]
  exact List.prefix_append _ _

/-- The threshold of `overflows` is `2 ^ 1024 - 2 ^ 970`. -/
theorem overflowThreshold_eq : overflowThreshold = 2 ^ 1024 - 2 ^ 970 := by
  norm_num [overflowThreshold]

/-- The function `isNaN` holds of `NaN` only. -/
theorem isNaN_eq_true_iff (number : JsNumber) : isNaN number = true ↔ number = .nan := by
  cases number <;> simp [isNaN]

/-- The resolved base URL is never the empty string. -/
theorem API_URL_ne_empty (env : Option String) : API_URL env ≠ "" := by
  unfold API_URL strOr
  cases env with
  | none => decide
  | some s =>
    by_cases h : s = ""
    · simp [h]
    · simp [h]

/-- A base URL that does not end with a slash is kept as it is. -/
theorem stripTrailingSlash_eq_self (cs : List Char) (h : cs.getLast? ≠ some '/') :
    stripTrailingSlash cs = cs := by
  unfold stripTrailingSlash
  rw [List.getLast?_eq_head?_reverse] at h
  split
  · next r heq => rw [heq] at h; simp at h
  · next r _ heq => rw [heq] at h; simp at h
  · rfl

/-- Against a non-empty base URL without a slash at its end, a relative path that starts
with a single slash resolves to the base URL followed by the path. -/
theorem buildFullPath_relative (base rel : String) (rest : List Char) (hbase : base ≠ "")
    (hlast : base.data.getLast? ≠ some '/') (hrel : rel.data = '/' :: rest)
    (hrest : rest.dropWhile (· == '/') = rest) (habs : isAbsoluteURL rel = false) :
    buildFullPath base rel = base ++ rel := by
  have hne : rel ≠ "" := by
    intro h
    rw [h] at hrel
    simp at hrel
  unfold buildFullPath combineURLs
  rw [if_pos ⟨hbase, habs⟩, if_neg hne, stripTrailingSlash_eq_self _ hlast]
  apply String.ext
  rw [String.data_append, hrel]
  simp [hrest]

/-! ### The client -/

/-- Every call of the client hands exactly one request to the transport. -/
theorem apiClient_request_requests {P D : Type} (env : Option String) (adapter : Adapter P D)
    (method : Method) (url : String) (data : RequestData P) (contentType : String) :
    (apiClient.request env adapter method url data contentType).requests =
      [apiClient.merged env method url data contentType] := by
  simp only [apiClient.request, requestInterceptor]
  split <;> rfl

/-- The response interceptor rejects with the error it was given. -/
theorem responseRejected_snd (error : JsError) : (responseRejected error).2 = error := by
  unfold responseRejected
  cases error.response with
  | some r => rfl
  | none => cases error.request <;> rfl

/-- A response of the transport is the result of the call, and nothing is logged. -/
theorem apiClient_request_ok {P D : Type} (env : Option String) (adapter : Adapter P D)
    (method : Method) (url : String) (data : RequestData P) (contentType : String)
    (response : Response D)
    (h : adapter (apiClient.merged env method url data contentType) = .ok response) :
    (apiClient.request env adapter method url data contentType).result = .ok response ∧
    (apiClient.request env adapter method url data contentType).console = [] := by
  simp [apiClient.request, requestInterceptor, h, responseFulfilled]

/-- An error of the transport is the result of the call, after one console line. -/
theorem apiClient_request_error {P D : Type} (env : Option String) (adapter : Adapter P D)
    (method : Method) (url : String) (data : RequestData P) (contentType : String)
    (error : JsError)
    (h : adapter (apiClient.merged env method url data contentType) = .error error) :
    (apiClient.request env adapter method url data contentType).result = .error error ∧
    (apiClient.request env adapter method url data contentType).console =
      [(responseRejected error).1] := by
  simp [apiClient.request, requestInterceptor, h, responseRejected_snd]

/-- An API method over a transport that answers with `response`: one request, made
of the base URL of the configuration and the relative URL of the method, and
`response.data` returned. -/
theorem returnData_single_call {P D : Type} (env : Option String) (response : Response D)
    (method : Method) (url : String) (data : RequestData P) (contentType : String) :
    (returnData (apiClient.request env (fun _ => Except.ok response : Adapter P D) method url data
      contentType)).IsSingleCall method (config env).apiUrl url response.data := by
  refine ⟨apiClient.merged env method url data contentType, ?_, rfl, rfl, rfl, ?_⟩
  · exact apiClient_request_requests env _ _ _ _ _
  · have := (apiClient_request_ok env (fun _ => Except.ok response : Adapter P D) method url data
      contentType response rfl).1
    simp [returnData, this, Except.map]

/-- The requests of an API method are sent to the URL its relative URL resolves to. -/
theorem returnData_targets {P D : Type} (env : Option String) (adapter : Adapter P D)
    (method : Method) (url : String) (data : RequestData P) (contentType : String)
    (target : String) (htarget : buildFullPath (config env).apiUrl url = target) :
    (returnData (apiClient.request env adapter method url data contentType)).Targets target := by
  intro request hrequest
  have hreq : request ∈ (apiClient.request env adapter method url data contentType).requests :=
    hrequest
  rw [apiClient_request_requests, List.mem_singleton] at hreq
  rw [hreq]
  exact htarget

/-- The request of `predict`. -/
theorem predict_requests {P D : Type} (env : Option String) (adapter : Adapter P D)
    (fs : JsArray JsNumber) (v : Option String) :
    (predict env adapter fs v).requests =
      [apiClient.merged env .POST "/api/predict" (.predictBody fs (v.getD "latest"))
        "application/json"] :=
  apiClient_request_requests env adapter _ _ _ _

/-- A failure of the transport is thrown by `predict` as it is. -/
theorem predict_error {P D : Type} (env : Option String) (adapter : Adapter P D)
    (fs : JsArray JsNumber) (v : Option String) (error : JsError)
    (h : adapter (apiClient.merged env .POST "/api/predict" (.predictBody fs (v.getD "latest"))
        "application/json") = .error error) :
    (predict env adapter fs v).result = .error error := by
  have := (apiClient_request_error env adapter _ _ _ _ error h).1
  simp [predict, returnData, apiClient.post, this, Except.map]

/-- On success `predict` returns the body of the response. -/
theorem predict_ok {P D : Type} (env : Option String) (adapter : Adapter P D)
    (fs : JsArray JsNumber) (v : Option String) (response : Response D)
    (h : adapter (apiClient.merged env .POST "/api/predict" (.predictBody fs (v.getD "latest"))
        "application/json") = .ok response) :
    (predict env adapter fs v).result = .ok response.data := by
  have := (apiClient_request_ok env adapter _ _ _ _ response h).1
  simp [predict, returnData, apiClient.post, this, Except.map]

/-! ### The prediction handler -/

/-- When an entry parses to `NaN`, `handlePredict` makes no request and reports the
validation error. -/
theorem handlePredict_invalid {P D : Type} (env : Option String) (adapter : Adapter P D)
    (state : DashboardState D) (h : JsArray.some isNaN (featureValues state.features) = true) :
    (handlePredict env adapter state).requests = [] ∧
    (handlePredict env adapter state).result.error = some "All features must be valid numbers" := by
  simp only [handlePredict, h, if_true, handlePredict.caught]
  refine ⟨by trivial, ?_⟩
  show some (errorText _) = _
  decide

/-- When no entry parses to `NaN`, `handlePredict` makes the one request of `predict`. -/
theorem handlePredict_valid_requests {P D : Type} (env : Option String) (adapter : Adapter P D)
    (state : DashboardState D) (h : JsArray.some isNaN (featureValues state.features) = false) :
    (handlePredict env adapter state).requests = [predictRequest env state.features] := by
  have hreq := predict_requests env adapter (featureValues state.features) none
  simp only [handlePredict, h, handlePredict.caught]
  simp only [Bool.false_eq_true, if_false]
  split <;> exact hreq

/-- When the request fails, `handlePredict` reports `errorText` of the error. -/
theorem handlePredict_valid_error {P D : Type} (env : Option String) (adapter : Adapter P D)
    (state : DashboardState D) (error : JsError)
    (h : JsArray.some isNaN (featureValues state.features) = false)
    (hfail : adapter (predictRequest env state.features) = .error error) :
    (handlePredict env adapter state).result.error = some (errorText error) := by
  have herr := predict_error env adapter (featureValues state.features) none error hfail
  simp only [handlePredict, h, handlePredict.caught]
  simp only [Bool.false_eq_true, if_false]
  rw [herr]

/-- When the request succeeds, `handlePredict` stores the result and clears the error. -/
theorem handlePredict_valid_ok {P D : Type} (env : Option String) (adapter : Adapter P D)
    (state : DashboardState D) (response : Response D)
    (h : JsArray.some isNaN (featureValues state.features) = false)
    (hok : adapter (predictRequest env state.features) = .ok response) :
    (handlePredict env adapter state).result.error = none ∧
    (handlePredict env adapter state).result.predictionResult = some response.data := by
  have hres := predict_ok env adapter (featureValues state.features) none response hok
  simp only [handlePredict, h, handlePredict.caught]
  simp only [Bool.false_eq_true, if_false]
  rw [hres]
  exact ⟨rfl, rfl⟩

/-- Every request of `handlePredict` is the request of `predict` on the parsed features. -/
theorem handlePredict_requests_mem {P D : Type} (env : Option String) (adapter : Adapter P D)
    (state : DashboardState D) (request : RequestConfig P)
    (h : request ∈ (handlePredict env adapter state).requests) :
    request = predictRequest env state.features := by
  cases hvalid : JsArray.some isNaN (featureValues state.features) with
  | true =>
    rw [(handlePredict_invalid env adapter state hvalid).1] at h
    exact absurd h (List.not_mem_nil _)
  | false =>
    rw [handlePredict_valid_requests env adapter state hvalid, List.mem_singleton] at h
    exact h

/-- The parsed features of a list of text inputs. -/
theorem featureValues_ofTexts (inputs : List String) :
    featureValues (ofTexts inputs) = inputs.map fun text => some (parseFloat text) := by
  simp [featureValues, ofTexts, JsArray.map, Entry.toString]

/-- The validation of `handlePredict` on a list of text inputs. -/
theorem some_isNaN_ofTexts (inputs : List String) :
    JsArray.some isNaN (featureValues (ofTexts inputs)) =
      inputs.any fun text => isNaN (parseFloat text) := by
  rw [featureValues_ofTexts]
  induction inputs with
  | nil => rfl
  | cons text rest ih =>
    simp only [JsArray.some, List.map_cons, List.any_cons] at ih ⊢
    rw [ih]

/-- When `parseFloat` reads no number from one of the text inputs, `handlePredict` makes no
request and reports the validation error. -/
theorem handlePredict_rejects_nan_entry {P D : Type} (env : Option String)
    (adapter : Adapter P D) (state : DashboardState D) (inputs : List String)
    (hstate : state.features = ofTexts inputs)
    (hbad : ∃ text ∈ inputs, parseFloat text = .nan) :
    (handlePredict env adapter state).requests = [] ∧
    (handlePredict env adapter state).result.error =
      some "All features must be valid numbers" := by
  apply handlePredict_invalid
  rw [hstate, some_isNaN_ofTexts, List.any_eq_true]
  obtain ⟨text, hmem, hnan⟩ := hbad
  exact ⟨text, hmem, by simp [hnan, isNaN]⟩

/-- An array that passes the validation has no `NaN` element. -/
theorem not_nan_of_some_isNaN_false (array : JsArray JsNumber)
    (h : JsArray.some isNaN array = false) (number : JsNumber) (hmem : some number ∈ array) :
    number ≠ .nan := by
  intro hn
  have : JsArray.some isNaN array = true := by
    simp only [JsArray.some, List.any_eq_true]
    exact ⟨some number, hmem, by simp [hn, isNaN]⟩
  rw [h] at this
  exact Bool.false_ne_true this

/-- Parsing keeps the length of the feature list. -/
theorem featureValues_length (features : JsArray Entry) :
    (featureValues features).length = features.length := by
  simp [featureValues, JsArray.map]

/-- A non-empty `detail` of the response body is the error text. -/
theorem errorText_of_detail (err : JsError) (d : String) (h : err.detail = some d) (hd : d ≠ "") :
    errorText err = d := by
  simp [errorText, h, strOr, hd]

/-- Without a non-empty `detail`, a non-empty message of the error is the error text. -/
theorem errorText_of_message (err : JsError) (h : err.detail = none ∨ err.detail = some "")
    (hm : err.message ≠ "") : errorText err = err.message := by
  rcases h with h | h <;> simp [errorText, h, strOr, hm]

/-- Without a non-empty `detail` and a non-empty message, the error text is
`Prediction failed`. -/
theorem errorText_generic (err : JsError) (h : err.detail = none ∨ err.detail = some "")
    (hm : err.message = "") : errorText err = "Prediction failed" := by
  rcases h with h | h <;> simp [errorText, h, strOr, hm]

/-! ### The feature list -/

/-- An array has at most as many elements as slots. -/
theorem elements_length_le {α : Type} (array : JsArray α) :
    (JsArray.elements array).length ≤ array.length :=
  List.length_filterMap_le _ _

/-- An array without holes has as many elements as slots. -/
theorem elements_length_of_dense {α : Type} (array : JsArray α)
    (h : ∀ slot ∈ array, slot ≠ none) : (JsArray.elements array).length = array.length := by
  induction array with
  | nil => rfl
  | cons slot rest ih =>
    have hrest : ∀ s ∈ rest, s ≠ none := fun s hs => h s (List.mem_cons_of_mem _ hs)
    cases slot with
    | none => exact absurd rfl (h none (List.mem_cons_self _ _))
    | some v =>
      simp only [JsArray.elements, List.filterMap_cons, id_eq, List.length_cons]
      exact congrArg Nat.succ (ih hrest)

/-- A spread copy has no holes. -/
theorem spread_dense (array : JsArray Entry) : ∀ slot ∈ spread array, slot ≠ none := by
  intro slot hslot
  simp only [spread, List.mem_map] at hslot
  obtain ⟨s, _, rfl⟩ := hslot
  exact Option.some_ne_none _

/-- A spread copy has the length of the array. -/
theorem spread_length (array : JsArray Entry) : (spread array).length = array.length := by
  simp [spread]

/-- The result of `filter` has no holes. -/
theorem filterFrom_dense {α : Type} (keep : α → Nat → Bool) (k : Nat) (array : JsArray α) :
    ∀ slot ∈ JsArray.filterFrom keep k array, slot ≠ none := by
  induction array generalizing k with
  | nil => intro slot h; simp [JsArray.filterFrom] at h
  | cons s rest ih =>
    cases s with
    | none => simpa [JsArray.filterFrom] using ih (k + 1)
    | some v =>
      intro slot h
      simp only [JsArray.filterFrom] at h
      split at h
      · rcases List.mem_cons.mp h with h | h
        · rw [h]; exact Option.some_ne_none _
        · exact ih (k + 1) slot h
      · exact ih (k + 1) slot h

/-- Filtering out an index that lies before the first slot keeps every element. -/
theorem filterFrom_length_past (index : Int) (k : Nat) (array : JsArray Entry)
    (h : index < k) :
    (JsArray.filterFrom (fun _ i => decide ((i : Int) ≠ index)) k array).length =
      (JsArray.elements array).length := by
  induction array generalizing k with
  | nil => rfl
  | cons s rest ih =>
    have hk : index < ((k + 1 : Nat) : Int) := by push_cast; omega
    cases s with
    | none => simpa [JsArray.filterFrom, JsArray.elements] using ih (k + 1) hk
    | some v =>
      have hne : (k : Int) ≠ index := by omega
      simp only [JsArray.filterFrom, hne, ne_eq, not_false_eq_true, decide_True, if_true,
        List.length_cons, JsArray.elements, List.filterMap_cons, id_eq]
      exact congrArg Nat.succ (ih (k + 1) hk)

/-- Filtering out one index removes at most one element. -/
theorem filterFrom_length_bound (index : Int) (k : Nat) (array : JsArray Entry) :
    (JsArray.elements array).length ≤
      (JsArray.filterFrom (fun _ i => decide ((i : Int) ≠ index)) k array).length + 1 := by
  induction array generalizing k with
  | nil => simp [JsArray.elements]
  | cons s rest ih =>
    cases s with
    | none => simpa [JsArray.filterFrom, JsArray.elements] using ih (k + 1)
    | some v =>
      by_cases hk : (k : Int) = index
      · have hpast : index < ((k + 1 : Nat) : Int) := by push_cast; omega
        have := filterFrom_length_past index (k + 1) rest hpast
        simp only [JsArray.filterFrom, hk, ne_eq, not_true_eq_false, decide_False,
          Bool.false_eq_true, if_false, JsArray.elements, List.filterMap_cons, id_eq,
          List.length_cons]
        simp only [JsArray.elements, ne_eq] at this
        omega
      · have := ih (k + 1)
        simp only [JsArray.filterFrom, hk, ne_eq, not_false_eq_true, decide_True, if_true,
          JsArray.elements, List.filterMap_cons, id_eq, List.length_cons]
        simp only [JsArray.elements, ne_eq] at this
        omega

/-- A non-empty array without holes satisfies the invariant. -/
theorem featuresInv_of_dense (features : JsArray Entry) (hdense : ∀ slot ∈ features, slot ≠ none)
    (hlen : 1 ≤ features.length) : FeaturesInv features := by
  have h := elements_length_of_dense features hdense
  exact ⟨by omega, fun h1 => by omega⟩

/-- Under the invariant the array has a slot. -/
theorem featuresInv_length (features : JsArray Entry) (h : FeaturesInv features) :
    1 ≤ features.length :=
  le_trans h.1 (elements_length_le features)

/-- The initial feature list satisfies the invariant. -/
theorem featuresInv_initial : FeaturesInv initialFeatures := by
  unfold FeaturesInv
  decide

/-- The handler `handleFeatureChange` keeps the invariant. -/
theorem featuresInv_handleFeatureChange (features : JsArray Entry) (index : Int) (value : String)
    (h : FeaturesInv features) : FeaturesInv (handleFeatureChange features index value) := by
  have hlen : 1 ≤ (spread features).length := by
    rw [spread_length]; exact featuresInv_length features h
  have hdense := spread_dense features
  unfold handleFeatureChange assign
  split
  · split
    · apply featuresInv_of_dense
      · intro slot hslot
        rcases List.mem_or_eq_of_mem_set hslot with hs | hs
        · exact hdense slot hs
        · rw [hs]; exact Option.some_ne_none _
      · rw [List.length_set]; exact hlen
    · have hel : (JsArray.elements (spread features ++
          List.replicate (index.toNat - (spread features).length) none ++
          [some (Entry.text value)])).length = (spread features).length + 1 := by
        simp only [JsArray.elements, List.filterMap_append, List.length_append]
        have h1 := elements_length_of_dense _ hdense
        simp only [JsArray.elements] at h1
        rw [h1]
        simp
      refine ⟨by omega, fun h1 => by omega⟩
  · exact featuresInv_of_dense _ hdense hlen

/-- The handler `addFeature` establishes the invariant. -/
theorem featuresInv_addFeature (features : JsArray Entry) :
    FeaturesInv (addFeature features) := by
  apply featuresInv_of_dense
  · intro slot hslot
    rcases List.mem_append.mp hslot with hs | hs
    · exact spread_dense features slot hs
    · rw [List.mem_singleton.mp hs]; exact Option.some_ne_none _
  · simp [addFeature]

/-- The handler `removeFeature` keeps the invariant. -/
theorem featuresInv_removeFeature (features : JsArray Entry) (index : Int)
    (h : FeaturesInv features) : FeaturesInv (removeFeature features index) := by
  unfold removeFeature
  split
  · next hgt =>
    apply featuresInv_of_dense
    · exact filterFrom_dense _ 0 features
    · have hb := filterFrom_length_bound index 0 features
      have h1 := h.1
      have h2 := h.2
      unfold JsArray.filter
      by_cases hone : (JsArray.elements features).length = 1
      · have := h2 hone
        omega
      · omega
  · exact h

/-- Every handler call keeps the invariant. -/
theorem featuresInv_apply (features : JsArray Entry) (action : FormAction)
    (h : FeaturesInv features) : FeaturesInv (action.apply features) := by
  cases action with
  | change index value => exact featuresInv_handleFeatureChange features index value h
  | add => exact featuresInv_addFeature features
  | remove index => exact featuresInv_removeFeature features index h

/-- Every sequence of handler calls keeps the invariant. -/
theorem featuresInv_foldl (actions : List FormAction) (features : JsArray Entry)
    (h : FeaturesInv features) : FeaturesInv (actions.foldl FormAction.apply features) := by
  induction actions generalizing features with
  | nil => exact h
  | cons action rest ih => exact ih _ (featuresInv_apply features action h)

/-! ### The health check -/

/-- A successful health check stores the payload: the indicator shows
`API Connected` when the payload is truthy and `API Offline` when it is not. -/
theorem checkApiHealth_ok {P D : Type} (env : Option String) (adapter : Adapter P D)
    (truthy : D → Bool) (state : DashboardState D) (response : Response D)
    (h : adapter (apiClient.merged env .GET "/health" .none "application/json") = .ok response) :
    (checkApiHealth env adapter state).result.apiStatus = some response.data ∧
    statusText truthy (checkApiHealth env adapter state).result =
      if truthy response.data then "API Connected" else "API Offline" := by
  have hres : (healthCheck env adapter).result = .ok response.data := by
    have := (apiClient_request_ok env adapter _ _ _ _ response h).1
    simp [healthCheck, returnData, apiClient.get, this, Except.map]
  simp only [checkApiHealth]
  rw [hres]
  exact ⟨rfl, rfl⟩

/-- A failed health check leaves `apiStatus`, and with it the indicator, as it was. -/
theorem checkApiHealth_error {P D : Type} (env : Option String) (adapter : Adapter P D)
    (truthy : D → Bool) (state : DashboardState D) (error : JsError)
    (h : adapter (apiClient.merged env .GET "/health" .none "application/json") = .error error) :
    (checkApiHealth env adapter state).result.apiStatus = state.apiStatus ∧
    statusText truthy (checkApiHealth env adapter state).result = statusText truthy state := by
  have hres : (healthCheck env adapter).result = .error error := by
    have := (apiClient_request_error env adapter _ _ _ _ error h).1
    simp [healthCheck, returnData, apiClient.get, this, Except.map]
  simp only [checkApiHealth]
  rw [hres]
  exact ⟨rfl, rfl⟩

/-! ### The claims -/

/-- C1: for every non-empty array of numbers `fs` and every optional version `v`,
`predict` makes exactly one request, a `POST` to `/api/predict`, whose body has `features`
equal to `fs` and `model_version` equal to `v` when `v` is given and to `latest` when it is
omitted. -/
theorem predict_issues_one_post {P D : Type} (env : Option String) (adapter : Adapter P D)
    (fs : JsArray JsNumber) (v : Option String) (_hfs : fs ≠ []) :
    ∃ request model_version,
      (predict env adapter fs v).requests = [request] ∧
      request.method = .POST ∧ request.url = "/api/predict" ∧
      request.data = .predictBody fs model_version ∧
      (∀ s, v = some s → model_version = s) ∧ (v = none → model_version = "latest") := by
  refine ⟨_, v.getD "latest", apiClient_request_requests env adapter _ _ _ _, rfl, rfl, rfl, ?_, ?_⟩
  · intro s hs; subst hs; rfl
  · intro hv; subst hv; rfl

/-- C1 at the features `[1.5]` and the version `v1`. -/
theorem predict_issues_one_post_witness :
    ([some (JsNumber.finite false 15 (-1))] : JsArray JsNumber) ≠ [] ∧
    ∃ request model_version,
      (predict none (fun _ => Except.ok ⟨200, ()⟩ : Adapter Unit Unit)
        [some (JsNumber.finite false 15 (-1))] (some "v1")).requests = [request] ∧
      request.method = .POST ∧ request.url = "/api/predict" ∧
      request.data = .predictBody [some (JsNumber.finite false 15 (-1))] model_version ∧
      (∀ s, some "v1" = some s → model_version = s) ∧
      ((some "v1" : Option String) = none → model_version = "latest") :=
  ⟨by decide, predict_issues_one_post none _ _ (some "v1") (by decide)⟩

/-- C2 fails on the code: the input `1.5abc` is not a number, yet `handlePredict` reads it
as `1.5`, makes the request with that feature and reports no error, where the claim and the
message of the validation (`All features must be valid numbers`) have it rejected with no
request made. -/
theorem handlePredict_accepts_trailing_text :
    (∃ text ∈ ["1.5abc"], isNumericText text = false) ∧
    ((handlePredict none (fun _ => Except.ok ⟨200, ()⟩ : Adapter Unit Unit)
        { (initialState : DashboardState Unit) with features := ofTexts ["1.5abc"] }).requests.map
          fun request => request.data) =
      [.predictBody [some (.finite false 15 (-1))] "latest"] ∧
    (handlePredict none (fun _ => Except.ok ⟨200, ()⟩ : Adapter Unit Unit)
        { (initialState : DashboardState Unit) with features := ofTexts ["1.5abc"] }).result.error
      = none := by
  decide

/-- C3 as stated fails: for a status 500 response whose body has the empty string as
`detail`, `handlePredict` reports the message of the error, not the detail. -/
theorem empty_detail_not_surfaced :
    (handlePredict none
      (fun _ => Except.error
        ⟨"Request failed with status code 500", some (), some ⟨500, some ⟨some ""⟩⟩⟩ :
        Adapter Unit Unit)
      (initialState : DashboardState Unit)).result.error
      = some "Request failed with status code 500" ∧
    (handlePredict none
      (fun _ => Except.error
        ⟨"Request failed with status code 500", some (), some ⟨500, some ⟨some ""⟩⟩⟩ :
        Adapter Unit Unit)
      (initialState : DashboardState Unit)).result.error ≠ some "" := by
  decide

/-- C3 (amended): when the request of a prediction fails with an error whose response body
carries a non-empty `detail` `d`, the error passes the response interceptor and `predict`
unchanged and `handlePredict` reports `d`. -/
theorem server_detail_surfaced {P D : Type} (env : Option String) (state : DashboardState D)
    (err : JsError) (status : Nat) (d : String)
    (hvalid : JsArray.some isNaN (featureValues state.features) = false)
    (hresponse : err.response = some ⟨status, some ⟨some d⟩⟩) (hd : d ≠ "") :
    (responseRejected err).2 = err ∧
    (predict env (fun _ => Except.error err : Adapter P D) (featureValues state.features)
      none).result = .error err ∧
    (handlePredict env (fun _ => Except.error err : Adapter P D) state).result.error = some d := by
  refine ⟨responseRejected_snd err, predict_error env _ _ _ err rfl, ?_⟩
  rw [handlePredict_valid_error env _ state err hvalid rfl]
  exact congrArg some (errorText_of_detail err d (by simp [JsError.detail, hresponse]) hd)

/-- C3 (amended) at a status 500 response with `detail` `model unavailable`. -/
theorem server_detail_surfaced_witness :
    JsArray.some isNaN (featureValues (initialState : DashboardState Unit).features) = false ∧
    (handlePredict none
      (fun _ => Except.error
        ⟨"Request failed with status code 500", some (),
          some ⟨500, some ⟨some "model unavailable"⟩⟩⟩ : Adapter Unit Unit)
      (initialState : DashboardState Unit)).result.error = some "model unavailable" :=
  ⟨by decide,
    (server_detail_surfaced none initialState
      ⟨"Request failed with status code 500", some (),
        some ⟨500, some ⟨some "model unavailable"⟩⟩⟩ 500 "model unavailable"
      (by decide) rfl (by decide)).2.2⟩

/-- C4 as stated fails: an override that is set to the empty string is not used, the
default base URL is. -/
theorem config_apiUrl_empty_override :
    (config (some "")).apiUrl = "http://localhost:8000" ∧
      (config (some "")).apiUrl ≠ "" := by
  decide

/-- C4 (amended): the base URL is the environment override when one is set and not empty,
and `http://localhost:8000` when none is set or it is empty; each of the eight endpoints is
the base URL followed by its fixed suffix, so each starts with the base URL. -/
theorem config_resolution (env : Option String) :
    (∀ s, env = some s → s ≠ "" → (config env).apiUrl = s) ∧
    (env = none ∨ env = some "" → (config env).apiUrl = "http://localhost:8000") ∧
    (config env).endpoints.health = (config env).apiUrl ++ "/health" ∧
    (config env).endpoints.healthDetailed = (config env).apiUrl ++ "/health/detailed" ∧
    (config env).endpoints.predict = (config env).apiUrl ++ "/api/predict" ∧
    (config env).endpoints.predictBatch = (config env).apiUrl ++ "/api/predict/batch" ∧
    (config env).endpoints.modelInfo = (config env).apiUrl ++ "/api/model/info" ∧
    (config env).endpoints.ingest = (config env).apiUrl ++ "/api/ingest" ∧
    (config env).endpoints.ingestFile = (config env).apiUrl ++ "/api/ingest/file" ∧
    (config env).endpoints.ingestStats = (config env).apiUrl ++ "/api/ingest/stats" ∧
    (∀ e ∈ (config env).endpoints.toList, (config env).apiUrl.data <+: e.data) := by
  refine ⟨?_, ?_, rfl, rfl, rfl, rfl, rfl, rfl, rfl, rfl, ?_⟩
  · intro s hs hne
    subst hs
    exact strOr_of_truthy s _ hne
  · rintro (h | h) <;> subst h <;> rfl
  · intro e he
    simp only [Endpoints.toList, config, List.mem_cons, List.mem_singleton, List.not_mem_nil,
      or_false] at he
    rcases he with h | h | h | h | h | h | h | h <;> subst h <;> exact data_prefix_append _ _

/-- C5 as stated fails: with the override `http://api.example.com/`, `healthCheck` is sent
to `http://api.example.com/health` while the endpoint map holds
`http://api.example.com//health`. -/
theorem trailing_slash_base_url_differs :
    ((healthCheck (some "http://api.example.com/")
        (fun _ => Except.ok ⟨200, ()⟩ : Adapter Unit Unit)).requests.map
          fun request => request.fullPath) = ["http://api.example.com/health"] ∧
    (config (some "http://api.example.com/")).endpoints.health =
      "http://api.example.com//health" ∧
    ((healthCheck (some "http://api.example.com/")
        (fun _ => Except.ok ⟨200, ()⟩ : Adapter Unit Unit)).requests.map
          fun request => request.fullPath) ≠
      [(config (some "http://api.example.com/")).endpoints.health] := by
  decide

/-- C5 (amended): for every base URL, each of the eight operations, over a transport that
answers with `response`, makes exactly one request, with the method of the operations table,
the base URL of the configuration and the relative path of the operation, and returns
`response.data`; when the base URL does not end with a slash (the default does not), that
request is sent to the URL the endpoint map holds for the operation. -/
theorem operations_follow_endpoint_map {P D : Type} (env : Option String)
    (response : Response D) (features : JsArray JsNumber) (modelVersion : Option String)
    (requests data file : P) (datasetName : Option String) :
    ((healthCheck env (fun _ => Except.ok response : Adapter P D)).IsSingleCall .GET
        (config env).apiUrl "/health" response.data ∧
      (detailedHealthCheck env (fun _ => Except.ok response : Adapter P D)).IsSingleCall .GET
        (config env).apiUrl "/health/detailed" response.data ∧
      (predict env (fun _ => Except.ok response : Adapter P D) features
        modelVersion).IsSingleCall .POST (config env).apiUrl "/api/predict" response.data ∧
      (predictBatch env (fun _ => Except.ok response : Adapter P D) requests).IsSingleCall
        .POST (config env).apiUrl "/api/predict/batch" response.data ∧
      (getModelInfo env (fun _ => Except.ok response : Adapter P D)).IsSingleCall .GET
        (config env).apiUrl "/api/model/info" response.data ∧
      (ingestData env (fun _ => Except.ok response : Adapter P D) data
        datasetName).IsSingleCall .POST (config env).apiUrl "/api/ingest" response.data ∧
      (ingestFile env (fun _ => Except.ok response : Adapter P D) file
        datasetName).IsSingleCall .POST (config env).apiUrl "/api/ingest/file" response.data ∧
      (getIngestStats env (fun _ => Except.ok response : Adapter P D)).IsSingleCall .GET
        (config env).apiUrl "/api/ingest/stats" response.data) ∧
    ((config env).apiUrl.data.getLast? ≠ some '/' →
      (healthCheck env (fun _ => Except.ok response : Adapter P D)).Targets
        (config env).endpoints.health ∧
      (detailedHealthCheck env (fun _ => Except.ok response : Adapter P D)).Targets
        (config env).endpoints.healthDetailed ∧
      (predict env (fun _ => Except.ok response : Adapter P D) features modelVersion).Targets
        (config env).endpoints.predict ∧
      (predictBatch env (fun _ => Except.ok response : Adapter P D) requests).Targets
        (config env).endpoints.predictBatch ∧
      (getModelInfo env (fun _ => Except.ok response : Adapter P D)).Targets
        (config env).endpoints.modelInfo ∧
      (ingestData env (fun _ => Except.ok response : Adapter P D) data datasetName).Targets
        (config env).endpoints.ingest ∧
      (ingestFile env (fun _ => Except.ok response : Adapter P D) file datasetName).Targets
        (config env).endpoints.ingestFile ∧
      (getIngestStats env (fun _ => Except.ok response : Adapter P D)).Targets
        (config env).endpoints.ingestStats) := by
  refine ⟨⟨?_, ?_, ?_, ?_, ?_, ?_, ?_, ?_⟩, fun hbase => ⟨?_, ?_, ?_, ?_, ?_, ?_, ?_, ?_⟩⟩
  iterate 8 exact returnData_single_call env response _ _ _ _
  all_goals
    exact returnData_targets env _ _ _ _ _ _
      (buildFullPath_relative _ _ _ (API_URL_ne_empty env) hbase rfl (by decide) (by decide))

/-- C5 (amended) for `healthCheck`: at the default configuration the one `GET` goes to
`http://localhost:8000/health`, the entry of the endpoint map; at the override
`http://api.example.com/` it is still one `GET` of `/health` under that base URL that
returns the body. -/
theorem operations_follow_endpoint_map_witness :
    (config none).apiUrl.data.getLast? ≠ some '/' ∧
    (healthCheck none
      (fun _ => Except.ok ⟨200, "ok"⟩ : Adapter Unit String)).IsSingleCall .GET
      "http://localhost:8000" "/health" "ok" ∧
    (healthCheck none
      (fun _ => Except.ok ⟨200, "ok"⟩ : Adapter Unit String)).Targets
      "http://localhost:8000/health" ∧
    (healthCheck (some "http://api.example.com/")
      (fun _ => Except.ok ⟨200, "ok"⟩ : Adapter Unit String)).IsSingleCall .GET
      "http://api.example.com/" "/health" "ok" :=
  ⟨by decide,
    (operations_follow_endpoint_map none ⟨200, "ok"⟩ [] none () () () none).1.1,
    ((operations_follow_endpoint_map none ⟨200, "ok"⟩ [] none () () () none).2 (by decide)).1,
    (operations_follow_endpoint_map (some "http://api.example.com/") ⟨200, "ok"⟩ [] none () () ()
      none).1.1⟩

/-- C6: the response interceptor writes the line of exactly one of three kinds: `API Error:`
when the error carries a response, `Network Error:` when it carries no response but a
request, `Error:` otherwise; an error without a response is never logged as `API Error:`;
the interceptor rejects with the error it received, and a failing call makes exactly one
request. -/
theorem response_error_classified {P D : Type} (error : JsError) :
    ((responseRejected error).1.label = "API Error:" ↔ error.response.isSome = true) ∧
    ((responseRejected error).1.label = "Network Error:" ↔
      error.response = none ∧ error.request.isSome = true) ∧
    ((responseRejected error).1.label = "Error:" ↔
      error.response = none ∧ error.request = none) ∧
    ((responseRejected error).1.label = "API Error:" ∨
      (responseRejected error).1.label = "Network Error:" ∨
      (responseRejected error).1.label = "Error:") ∧
    (error.response = none → (responseRejected error).1.label ≠ "API Error:") ∧
    (responseRejected error).2 = error ∧
    ∀ (env : Option String) (adapter : Adapter P D) (method : Method) (url : String)
      (data : RequestData P) (contentType : String),
      adapter (apiClient.merged env method url data contentType) = .error error →
      (apiClient.request env adapter method url data contentType).requests =
        [apiClient.merged env method url data contentType] ∧
      (apiClient.request env adapter method url data contentType).console =
        [(responseRejected error).1] ∧
      (apiClient.request env adapter method url data contentType).result = .error error := by
  refine ⟨?_, ?_, ?_, ?_, ?_, responseRejected_snd error, ?_⟩
  · cases hr : error.response <;> cases hq : error.request <;>
      simp [responseRejected, hr, hq]
  · cases hr : error.response <;> cases hq : error.request <;>
      simp [responseRejected, hr, hq]
  · cases hr : error.response <;> cases hq : error.request <;>
      simp [responseRejected, hr, hq]
  · cases hr : error.response <;> cases hq : error.request <;>
      simp [responseRejected, hr, hq]
  · intro h
    cases hq : error.request <;> simp [responseRejected, h, hq]
  · intro env adapter method url data contentType h
    exact ⟨apiClient_request_requests env adapter _ _ _ _,
      (apiClient_request_error env adapter _ _ _ _ error h).2,
      (apiClient_request_error env adapter _ _ _ _ error h).1⟩

/-- C7 as stated fails: for an error without a response and with the message
`Network Error`, `handlePredict` reports `Network Error`, not `Prediction failed`. -/
theorem own_message_before_generic :
    (handlePredict none
      (fun _ => Except.error ⟨"Network Error", some (), none⟩ : Adapter Unit Unit)
      (initialState : DashboardState Unit)).result.error = some "Network Error" ∧
    (handlePredict none
      (fun _ => Except.error ⟨"Network Error", some (), none⟩ : Adapter Unit Unit)
      (initialState : DashboardState Unit)).result.error ≠ some "Prediction failed" := by
  decide

/-- C7 (amended): a failed prediction, whether the request failed or the local validation
did, reports `errorText` of the error, which is the detail of the response body when that is
present and not empty, otherwise the message of the error when that is not empty, and only
then `Prediction failed`. -/
theorem error_message_preference {P D : Type} (env : Option String) (state : DashboardState D)
    (err : JsError) :
    (JsArray.some isNaN (featureValues state.features) = false →
      (handlePredict env (fun _ => Except.error err : Adapter P D) state).result.error =
        some (errorText err)) ∧
    (∀ adapter : Adapter P D, JsArray.some isNaN (featureValues state.features) = true →
      (handlePredict env adapter state).result.error =
        some (errorText ⟨"All features must be valid numbers", none, none⟩)) ∧
    (∀ d, err.detail = some d → d ≠ "" → errorText err = d) ∧
    (err.detail = none ∨ err.detail = some "" → err.message ≠ "" →
      errorText err = err.message) ∧
    (err.detail = none ∨ err.detail = some "" → err.message = "" →
      errorText err = "Prediction failed") :=
  ⟨fun hvalid => handlePredict_valid_error env _ state err hvalid rfl,
    fun adapter hinvalid => (handlePredict_invalid env adapter state hinvalid).2,
    fun d h hd => errorText_of_detail err d h hd,
    errorText_of_message err, errorText_generic err⟩

/-- C8 as stated fails: the input `Infinity` passes the validation and the infinite number
is sent. -/
theorem handlePredict_sends_infinity :
    ((handlePredict none (fun _ => Except.ok ⟨200, ()⟩ : Adapter Unit Unit)
        { (initialState : DashboardState Unit) with features := ofTexts ["Infinity"] }).requests.map
          fun request => request.data) =
      [.predictBody [some (.infinity false)] "latest"] ∧
    (JsNumber.infinity false).isFinite = false := by
  decide

/-- C8 (amended): for every list of text inputs, every request `handlePredict` makes carries
one number per input and none of them is `NaN`. -/
theorem handlePredict_sends_no_nan {P D : Type} (env : Option String)
    (adapter : Adapter P D) (state : DashboardState D) (inputs : List String)
    (hstate : state.features = ofTexts inputs)
    (request : RequestConfig P) (hreq : request ∈ (handlePredict env adapter state).requests) :
    ∃ features model_version, request.data = .predictBody features model_version ∧
      features.length = inputs.length ∧
      ∀ slot ∈ features, ∃ number, slot = some number ∧ number ≠ .nan := by
  cases hvalid : JsArray.some isNaN (featureValues state.features) with
  | true =>
    rw [(handlePredict_invalid env adapter state hvalid).1] at hreq
    exact absurd hreq (List.not_mem_nil _)
  | false =>
    rw [handlePredict_valid_requests env adapter state hvalid, List.mem_singleton] at hreq
    subst hreq
    refine ⟨featureValues state.features, "latest", rfl, ?_, ?_⟩
    · rw [hstate, featureValues_ofTexts, List.length_map]
    · intro slot hslot
      have hslot2 := hslot
      rw [hstate, featureValues_ofTexts, List.mem_map] at hslot2
      obtain ⟨text, _, rfl⟩ := hslot2
      exact ⟨parseFloat text, rfl, not_nan_of_some_isNaN_false _ hvalid _ hslot⟩

/-- C8 (amended) at the inputs `1.5`, `Infinity`. -/
theorem handlePredict_sends_no_nan_witness :
    ({ (initialState : DashboardState Unit) with
        features := ofTexts ["1.5", "Infinity"] }).features = ofTexts ["1.5", "Infinity"] ∧
    (predictRequest none (ofTexts ["1.5", "Infinity"]) : RequestConfig Unit) ∈
      (handlePredict none (fun _ => Except.ok ⟨200, ()⟩ : Adapter Unit Unit)
        { (initialState : DashboardState Unit) with
          features := ofTexts ["1.5", "Infinity"] }).requests ∧
    ∃ features model_version,
      (predictRequest none (ofTexts ["1.5", "Infinity"]) : RequestConfig Unit).data =
        .predictBody features model_version ∧
      features.length = ["1.5", "Infinity"].length ∧
      ∀ slot ∈ features, ∃ number, slot = some number ∧ number ≠ .nan :=
  ⟨rfl, by decide,
    handlePredict_sends_no_nan none (fun _ => Except.ok ⟨200, ()⟩ : Adapter Unit Unit)
      { (initialState : DashboardState Unit) with features := ofTexts ["1.5", "Infinity"] }
      ["1.5", "Infinity"] rfl _ (by decide)⟩

/-- C9: after any sequence of `handleFeatureChange`, `addFeature` and `removeFeature`
calls, with any integer indices, from the initial list, the feature list has at least one
slot and at least one element, and every request `handlePredict` makes from it carries a
non-empty feature array. -/
theorem feature_list_never_empty {P D : Type} (actions : List FormAction) :
    1 ≤ (featuresAfter actions).length ∧
    JsArray.elements (featuresAfter actions) ≠ [] ∧
    ∀ (env : Option String) (adapter : Adapter P D) (state : DashboardState D),
      state.features = featuresAfter actions →
      ∀ request ∈ (handlePredict env adapter state).requests,
        ∃ features model_version,
          request.data = .predictBody features model_version ∧ features ≠ [] := by
  have hinv : FeaturesInv (featuresAfter actions) :=
    featuresInv_foldl actions initialFeatures featuresInv_initial
  refine ⟨featuresInv_length _ hinv, ?_, ?_⟩
  · intro hnil
    have := hinv.1
    rw [hnil] at this
    simp at this
  · intro env adapter state hstate request hreq
    rw [handlePredict_requests_mem env adapter state request hreq]
    refine ⟨featureValues state.features, "latest", rfl, ?_⟩
    intro hnil
    have hlen := featureValues_length state.features
    rw [hnil, hstate] at hlen
    have := featuresInv_length _ hinv
    simp at hlen
    omega

/-- C10 fails on the code: after a successful health check, whose payload is an object,
followed by a failed one (the retrieval is rejected with `Network Error`), the indicator
still shows `API Connected`, next to the error `Unable to connect to backend API`. -/
theorem stale_status_after_failed_check :
    (healthCheck none
      (fun _ => Except.error ⟨"Network Error", some (), none⟩ :
        Adapter Unit (List (String × String)))).result =
      .error ⟨"Network Error", some (), none⟩ ∧
    statusText (fun _ => true)
      (checkApiHealth none
        (fun _ => Except.error ⟨"Network Error", some (), none⟩ :
          Adapter Unit (List (String × String)))
        (checkApiHealth none
          (fun _ => Except.ok ⟨200, [("status", "healthy")]⟩ :
            Adapter Unit (List (String × String)))
          initialState).result).result = "API Connected" ∧
    (checkApiHealth none
        (fun _ => Except.error ⟨"Network Error", some (), none⟩ :
          Adapter Unit (List (String × String)))
        (checkApiHealth none
          (fun _ => Except.ok ⟨200, [("status", "healthy")]⟩ :
            Adapter Unit (List (String × String)))
          initialState).result).result.error =
      some "Unable to connect to backend API. Make sure the server is running." := by
  refine ⟨rfl, ?_, ?_⟩ <;> decide

end CloudSecurityAI
